import Mathlib

/-
Verification development for the Exabeam MCP server
(src/exabeam-mcp-server.js).

The server is a protocol adapter: it validates three configuration values
at construction, and for each incoming tool call it authenticates against a
fixed OAuth endpoint and then dispatches by tool name to one of five
handlers, each of which builds one HTTP request and returns the response
body (or an error description) as a single text content block.

Modelling conventions:
* JavaScript runtime values flowing through the program are modelled by the
  inductive `Json` (null, booleans, numbers, strings, arrays, objects).
  JavaScript `undefined` is modelled as `Option.none` at the points where it
  can occur (absent object properties, absent query parameters).
* All numeric literals in the source are integers, so JSON numbers are
  modelled as `Int`.
* Network effects are modelled by an oracle `World` that fixes the outcome
  of the authentication call and of the (at most one) data-endpoint call a
  dispatch can issue.  Handlers are total Lean functions of the arguments
  and the oracle.
* `Date` values are modelled as epoch milliseconds (the source only ever
  shifts dates by whole days/hours, i.e. by fixed millisecond amounts);
  `Date.prototype.toISOString` is modelled abstractly by the injective
  rendering `isoOfMs`.
-/

namespace ExabeamMCP

/-- Model of the JavaScript/JSON values the program manipulates.  Numbers
are modelled as integers (every numeric literal in the source is one);
object properties keep insertion order, as JavaScript objects do.
`proto n` stands for the member named `n` inherited from
`Object.prototype` — a built-in function such as `toString`, or for
`__proto__` the prototype object itself — produced when a bracket lookup
on a plain object literal falls through to the prototype chain.  It is
modelled opaquely: the program never calls, serializes or reads
properties of such a member, it only passes it on as a query-parameter
value. -/
inductive Json where
  | null : Json
  | bool : Bool → Json
  | num : Int → Json
  | str : String → Json
  | arr : List Json → Json
  | obj : List (String × Json) → Json
  | proto : String → Json
deriving Repr

/-- JavaScript truthiness of a value (`ToBoolean`): `null`, `false`, `0`
and the empty string are falsy; arrays and objects are always truthy. -/
def Json.truthy : Json → Bool
  | .null => false
  | .bool b => b
  | .num n => n != 0
  | .str s => s != ""
  | .arr _ => true
  | .obj _ => true
  | .proto _ => true

/-- JavaScript string coercion of a value, as performed by template
literals: arrays join their elements with commas, plain objects render as
"[object Object]".  An inherited prototype member renders as its
host-defined source text, modelled abstractly by an injective placeholder
(the program never string-coerces one). -/
def Json.jsToString : Json → String
  | .null => "null"
  | .bool b => if b then "true" else "false"
  | .num n => toString n
  | .str s => s
  | .arr xs => String.intercalate "," (xs.attach.map (fun x => x.1.jsToString))
  | .obj _ => "[object Object]"
  | .proto n => "nativeMember(" ++ n ++ ")"
termination_by j => sizeOf j
decreasing_by
  simp_wf
  have := List.sizeOf_lt_of_mem x.2
  omega

/-- String coercion of a possibly-`undefined` value, as performed by a
template literal: `undefined` renders as "undefined". -/
def jsTemplate : Option Json → String
  | none => "undefined"
  | some j => j.jsToString

/-- Optional-chaining property access `v?.k`: `undefined` on `null`, on
non-objects, and on a missing key; JavaScript keeps the last write for a
duplicate key, so the lookup returns the last matching entry. -/
def Json.getProp : Json → String → Option Json
  | .obj kvs, k => kvs.foldl (fun acc p => if p.1 = k then some p.2 else acc) none
  | _, _ => none

/-- A JavaScript object used as an argument bag: ordered key/value pairs. -/
abbrev JsObj := List (String × Json)

/-- Property read on an argument object (`args.k`); `none` models
`undefined`.  Last write wins for duplicate keys. -/
def jsGet (args : JsObj) (k : String) : Option Json :=
  args.foldl (fun acc p => if p.1 = k then some p.2 else acc) none

/-- Destructuring with a default, `const \x7b k = d \x7d = args`: the default
applies exactly when the property is absent (undefined). -/
def jsGetD (args : JsObj) (k : String) (d : Json) : Json :=
  (jsGet args k).getD d

/-- Falsy-coalescing `x || d` where `x` may be `undefined`: yields `d`
unless `x` is present and truthy. -/
def jsOr (x : Option Json) (d : Json) : Json :=
  match x with
  | some j => if j.truthy then j else d
  | none => d

/-- JavaScript `ToNumber` coercion restricted to the value shapes the
program meets: `null` is 0, booleans are 0/1, the empty string is 0, other
strings parse as (integral) decimals.  `none` models NaN; non-integral
parses are folded into NaN since numbers are modelled as integers. -/
def Json.toNum : Json → Option Int
  | .null => some 0
  | .bool b => some (if b then 1 else 0)
  | .num n => some n
  | .str s => if s.trim = "" then some 0 else s.trim.toInt?
  | .arr _ => none
  | .obj _ => none
  | .proto _ => none

/-- Strict equality `v === s` against a string literal. -/
def Json.isStr (j : Json) (s : String) : Bool :=
  match j with
  | .str t => t == s
  | _ => false

/-- Escape of one character inside a JSON string literal, as
`JSON.stringify` performs it. -/
def escChar (c : Char) : String :=
  if c = '"' then "\\\""
  else if c = '\\' then "\\\\"
  else if c = '\n' then "\\n"
  else if c = '\r' then "\\r"
  else if c = '\t' then "\\t"
  else if c.toNat < 32 then
    "\\u00" ++ (Nat.toDigits 16 c.toNat).asString.leftpad 2 '0'
  else String.singleton c

/-- Quoted JSON string literal. -/
def quoteStr (s : String) : String :=
  "\"" ++ String.join (s.data.map escChar) ++ "\""

/-- Pretty-printing serialization `JSON.stringify(v, null, 2)`: two-space
indentation, elements on their own lines, empty arrays and objects inline.
`ind` is the indentation of the surrounding context.  A function value
renders as null (its array rendering; as an object property JavaScript
drops it instead) — in this program no inherited prototype member ever
reaches a serialized position, so the case is unreachable. -/
def stringifyAux (ind : String) : Json → String
  | .null => "null"
  | .bool b => if b then "true" else "false"
  | .num n => toString n
  | .str s => quoteStr s
  | .proto _ => "null"
  | .arr xs =>
      if xs.isEmpty then "[]"
      else
        "[\n" ++
          String.intercalate ",\n"
            (xs.attach.map (fun x => ind ++ "  " ++ stringifyAux (ind ++ "  ") x.1)) ++
          "\n" ++ ind ++ "]"
  | .obj kvs =>
      if kvs.isEmpty then "\x7b\x7d"
      else
        "\x7b\n" ++
          String.intercalate ",\n"
            (kvs.attach.map (fun p =>
              ind ++ "  " ++ quoteStr p.1.1 ++ ": " ++ stringifyAux (ind ++ "  ") p.1.2)) ++
          "\n" ++ ind ++ "\x7d"
termination_by j => sizeOf j
decreasing_by
  · simp_wf
    have := List.sizeOf_lt_of_mem x.2
    omega
  · simp_wf
    have h := List.sizeOf_lt_of_mem p.2
    have h2 : sizeOf p.1.2 < sizeOf p.1 := by
      obtain ⟨a, b⟩ := p.1
      simp
    omega

/-- Top-level `JSON.stringify(v, null, 2)`. -/
def stringify2 (v : Json) : String := stringifyAux "" v

/-- Abstract model of `Date.prototype.toISOString` on an epoch-millisecond
value: an injective rendering standing in for the ISO 8601 text (the exact
text is produced by the JavaScript runtime, not by this program). -/
def isoOfMs (ms : Int) : String := "iso(" ++ toString ms ++ ")"

/-! HTTP and protocol data model -/

/-- Upstream HTTP response attached to a failed axios call: status code,
status text and the parsed response body. -/
structure HttpResponse where
  status : Int
  statusText : String
  data : Json
deriving Repr

/-- Error thrown by an axios call: `response` is present for HTTP-level
failures (non-2xx status) and absent for transport failures; `message` is
the JavaScript Error message. -/
structure AxiosError where
  response : Option HttpResponse
  message : String
deriving Repr

/-- One content block of a Tool Call Result. -/
structure ContentBlock where
  type : String
  text : String
deriving Repr

/-- Tool Call Result: the object returned to the MCP runtime. -/
structure ToolResult where
  content : List ContentBlock
deriving Repr

/-- Result with a single text block, the only result shape the program
builds. -/
def textResult (t : String) : ToolResult :=
  { content := [{ type := "text", text := t }] }

inductive Method where
  | get : Method
  | post : Method
deriving Repr, DecidableEq

/-- An outgoing HTTP request as the handlers build it.  Query parameters
are ordered key/value pairs whose values may be `undefined` (`none`), which
axios omits from the query string; `body` is the POST payload. -/
structure HttpRequest where
  method : Method
  url : String
  params : List (String × Option Json)
  body : Option Json
  headers : List (String × String)
deriving Repr

/-- Oracle fixing the outcome of the network calls one dispatch can make:
the authentication POST and the (at most one) data-endpoint call.  `nowMs`
is the epoch-millisecond clock reading at call time. -/
structure World where
  authResult : Except AxiosError Json
  httpResult : Except AxiosError Json
  nowMs : Int

/-! Credential Store (constructor configuration validation) -/

/-- The process environment as the constructor reads it: each variable is
present (a string) or absent. -/
structure EnvConfig where
  exabeamUrl : Option String
  exabeamApiKey : Option String
  exabeamApiSecret : Option String
deriving Repr

/-- The validated configuration held for the process lifetime. -/
structure ExabeamConfig where
  baseUrl : String
  apiKey : String
  apiSecret : String
deriving Repr

/-- Truthiness of a possibly-absent environment string: absent and empty
are both falsy (`!value`). -/
def envTruthy : Option String → Bool
  | none => false
  | some s => s != ""

/-- Constructor validation, from the constructor body: reads the three
environment values and throws (returns `.error`) if the URL is falsy, or
if the key or the secret is falsy; otherwise the configuration is held.
On `.error` the process never reaches a servable state. -/
def constructConfig (env : EnvConfig) : Except String ExabeamConfig :=
  if envTruthy env.exabeamUrl = false then
    .error "EXABEAM_URL environment variable is required"
  else if envTruthy env.exabeamApiKey = false ∨ envTruthy env.exabeamApiSecret = false then
    .error "Both EXABEAM_API_KEY and EXABEAM_API_SECRET environment variables are required"
  else
    .ok { baseUrl := (env.exabeamUrl).getD ""
          apiKey := (env.exabeamApiKey).getD ""
          apiSecret := (env.exabeamApiSecret).getD "" }

/-! Authenticator -/

/-- The hardcoded authentication endpoint (independent of the configured
base URL). -/
def authUrl : String := "https://api.us-west.exabeam.cloud/auth/v1/token"

/-- The hardcoded regional data endpoint used by every handler. -/
def apiBaseUrl : String := "https://api.eu.exabeam.cloud"

/-- Model of `authenticate()`: on success the token is
`response.data.access_token` (possibly `undefined`); the access is not
optional-chained, so a `null` body raises a TypeError inside the same try
block and is re-thrown as an authentication failure (the runtime message
is modelled without its quotation marks).  On failure it throws an Error
whose message is `Authentication failed: ` followed by
`error.response?.data?.error_description || error.message`. -/
def authenticate (w : World) : Except String (Option Json) :=
  match w.authResult with
  | .ok .null =>
      .error "Authentication failed: Cannot read properties of null (reading access_token)"
  | .ok data => .ok (data.getProp "access_token")
  | .error e =>
      let desc : Option Json := e.response.bind (fun r => r.data.getProp "error_description")
      let msg : String :=
        match desc with
        | some j => if j.truthy then j.jsToString else e.message
        | none => e.message
      .error ("Authentication failed: " ++ msg)

/-! Per-tool handlers -/

/-- Outcome of running one handler under the oracle: either a result was
returned (after issuing `req`), or an error was thrown — `req` is the
request issued before the failure, or `none` when the throw happens before
any request is sent. -/
inductive HandlerStep where
  | done (req : HttpRequest) (res : ToolResult) : HandlerStep
  | thrown (req : Option HttpRequest) (msg : String) : HandlerStep
deriving Repr

/-- Object-spread / property-assignment on a header object: overwrite an
existing key in place, else append. -/
def setHeader (hs : List (String × String)) (k v : String) : List (String × String) :=
  if hs.any (fun p => p.1 = k) then hs.map (fun p => if p.1 = k then (k, v) else p)
  else hs ++ [(k, v)]

/-- Template-literal rendering of `error.response?.status`. -/
def statusTemplate (r : Option HttpResponse) : String :=
  match r with
  | none => "undefined"
  | some resp => toString resp.status

/-- Template-literal rendering of `error.response?.statusText`. -/
def statusTextTemplate (r : Option HttpResponse) : String :=
  match r with
  | none => "undefined"
  | some resp => resp.statusText

/-- The value serialized in the Details part of the search_events error
text: `error.response?.data || error.message`. -/
def detailsVal (e : AxiosError) : Json :=
  match e.response with
  | some r => if r.data.truthy then r.data else .str e.message
  | none => .str e.message

/-- The request body `searchParams` built by `searchEvents`, field by
field:
filter is `query || ''`, fields is the fixed projection, startTime
defaults (when falsy or absent) to 24 hours before call time, endTime to
call time, and limit defaults (when absent) to 100. -/
structure SearchEventsParams where
  filter : Json
  fields : List String
  startTime : Json
  endTime : Json
  limit : Json
deriving Repr

def mkSearchEventsParams (args : JsObj) (nowMs : Int) : SearchEventsParams :=
  let query := jsGet args "query"
  let startTime := jsGet args "startTime"
  let endTime := jsGet args "endTime"
  let limit := jsGetD args "limit" (.num 100)
  { filter := jsOr query (.str "")
    fields := ["time", "user", "action", "result", "src_ip", "dest_ip"]
    startTime := jsOr startTime (.str (isoOfMs (nowMs - 24 * 60 * 60 * 1000)))
    endTime := jsOr endTime (.str (isoOfMs nowMs))
    limit := limit }

/-- The `searchParams` object as serialized, in property order. -/
def SearchEventsParams.toJson (p : SearchEventsParams) : Json :=
  .obj [("filter", p.filter),
        ("fields", .arr (p.fields.map .str)),
        ("startTime", p.startTime),
        ("endTime", p.endTime),
        ("limit", p.limit)]

/-- The rich diagnostic text built by the `searchEvents` catch branch. -/
def searchEventsErrorText (e : AxiosError) (p : SearchEventsParams) : String :=
  "Error: " ++ statusTemplate e.response ++ " - " ++ statusTextTemplate e.response ++
  "\n\nDetails: " ++ stringify2 (detailsVal e) ++
  "\n\nRequest sent: " ++ stringify2 p.toJson

/-- Handler `searchEvents`: builds `searchParams`, POSTs it, and — unlike
the other four handlers — catches its own failure, returning the rich
diagnostic as a normal result.  It never throws. -/
def searchEvents (args : JsObj) (headers : List (String × String)) (w : World) : HandlerStep :=
  let p := mkSearchEventsParams args w.nowMs
  let req : HttpRequest :=
    { method := .post
      url := apiBaseUrl ++ "/search/v2/events"
      params := []
      body := some p.toJson
      headers := setHeader (setHeader headers "Content-Type" "application/json")
                   "Accept" "application/json" }
  match w.httpResult with
  | .ok data => .done req (textResult (stringify2 data))
  | .error e => .done req (textResult (searchEventsErrorText e p))

/-- Handler `getUserTimeline`: GET to the per-user timeline path with the
username embedded in the URL by template-literal interpolation (verbatim,
no URL-encoding); the time window is `days` (default 7) back from call
time.  A `days` value that does not coerce to a number makes the start
date invalid, so building the query parameters throws (`toISOString` on an
invalid Date) before any request; an HTTP failure propagates as a thrown
error. -/
def getUserTimeline (args : JsObj) (headers : List (String × String)) (w : World) : HandlerStep :=
  let username := jsTemplate (jsGet args "username")
  let days := jsGetD args "days" (.num 7)
  match days.toNum with
  | none => .thrown none "Invalid time value"
  | some d =>
    let startMs := w.nowMs - d * 24 * 60 * 60 * 1000
    let req : HttpRequest :=
      { method := .get
        url := apiBaseUrl ++ "/users/v1/" ++ username ++ "/timeline"
        params := [("startTime", some (.str (isoOfMs startMs))),
                   ("endTime", some (.str (isoOfMs w.nowMs)))]
        body := none
        headers := headers }
    match w.httpResult with
    | .ok data => .done req (textResult (stringify2 data))
    | .error e => .thrown (some req) e.message

/-- Member names every plain object inherits from `Object.prototype` (the
`__proto__` accessor included): a bracket lookup on an object literal with
one of these keys yields the inherited member, not `undefined`. -/
def objectProtoMembers : List String :=
  ["constructor", "hasOwnProperty", "isPrototypeOf", "propertyIsEnumerable",
   "toLocaleString", "toString", "valueOf",
   "__defineGetter__", "__defineSetter__", "__lookupGetter__", "__lookupSetter__",
   "__proto__"]

/-- The bracket lookup `severityMap[key]` of `getNotableEvents`:
`severityMap` is a plain object literal with own keys low/medium/high/
critical mapped to 1..4, so any other key falls through to the prototype
chain — a member name inherited from `Object.prototype` yields that
(truthy) member, and only keys outside both sets yield `undefined`. -/
def severityMap (key : String) : Option Json :=
  if key = "low" then some (Json.num 1)
  else if key = "medium" then some (Json.num 2)
  else if key = "high" then some (Json.num 3)
  else if key = "critical" then some (Json.num 4)
  else if key ∈ objectProtoMembers then some (Json.proto key)
  else none

/-- Handler `getNotableEvents`: GET to the notable-events path with query
parameters minSeverity (the `severityMap` lookup of `severity`, default
"medium"; `undefined` — hence omitted — only for keys that hit neither the
map nor the prototype chain), and a window of `hours` (default 24) back
from call time. -/
def getNotableEvents (args : JsObj) (headers : List (String × String)) (w : World) : HandlerStep :=
  let severity := jsGetD args "severity" (.str "medium")
  let hours := jsGetD args "hours" (.num 24)
  match hours.toNum with
  | none => .thrown none "Invalid time value"
  | some h =>
    let startMs := w.nowMs - h * 60 * 60 * 1000
    let req : HttpRequest :=
      { method := .get
        url := apiBaseUrl ++ "/notable-events/v1/events"
        params := [("minSeverity", severityMap severity.jsToString),
                   ("startTime", some (.str (isoOfMs startMs))),
                   ("endTime", some (.str (isoOfMs w.nowMs)))]
        body := none
        headers := headers }
    match w.httpResult with
    | .ok data => .done req (textResult (stringify2 data))
    | .error e => .thrown (some req) e.message

/-- Handler `getUserRiskScore`: GET to the per-user risk-score path with
the username embedded in the URL by template-literal interpolation; no
query parameters. -/
def getUserRiskScore (args : JsObj) (headers : List (String × String)) (w : World) : HandlerStep :=
  let username := jsTemplate (jsGet args "username")
  let req : HttpRequest :=
    { method := .get
      url := apiBaseUrl ++ "/users/v1/" ++ username ++ "/risk-score"
      params := []
      body := none
      headers := headers }
  match w.httpResult with
  | .ok data => .done req (textResult (stringify2 data))
  | .error e => .thrown (some req) e.message

/-- The POST payload built by `searchAssets`, in property order, with the
possibly-`undefined` query value kept as `none`: query, a hardcoded limit
of 50, and assetType appended only when it is not (strictly) the string
"all". -/
def searchAssetsPayload (args : JsObj) : List (String × Option Json) :=
  let query := jsGet args "query"
  let assetType := jsGetD args "assetType" (.str "all")
  [("query", query), ("limit", some (.num 50))] ++
    (if assetType.isStr "all" = false then [("assetType", some assetType)] else [])

/-- Serialization of a payload whose values may be `undefined`:
`JSON.stringify` drops such properties. -/
def payloadToJson (p : List (String × Option Json)) : Json :=
  .obj (p.filterMap (fun kv => kv.2.map (fun v => (kv.1, v))))

/-- Handler `searchAssets`: POST of the asset-search payload; an HTTP
failure propagates as a thrown error. -/
def searchAssets (args : JsObj) (headers : List (String × String)) (w : World) : HandlerStep :=
  let req : HttpRequest :=
    { method := .post
      url := apiBaseUrl ++ "/assets/v1/search"
      params := []
      body := some (payloadToJson (searchAssetsPayload args))
      headers := headers }
  match w.httpResult with
  | .ok data => .done req (textResult (stringify2 data))
  | .error e => .thrown (some req) e.message

/-! Tool Dispatcher -/

/-- The five registered tool names, in registration order. -/
def toolNames : List String :=
  ["search_events", "get_user_timeline", "get_notable_events",
   "get_user_risk_score", "search_assets"]

/-- The headers the dispatcher attaches after a successful
authentication. -/
def mkHeaders (token : Option Json) : List (String × String) :=
  [("Authorization", "Bearer " ++ jsTemplate token),
   ("Content-Type", "application/json")]

/-- The switch on the tool name inside the try block: route to the
matching handler, or throw the unknown-tool error. -/
def dispatchStep (name : String) (args : JsObj) (headers : List (String × String))
    (w : World) : HandlerStep :=
  if name = "search_events" then searchEvents args headers w
  else if name = "get_user_timeline" then getUserTimeline args headers w
  else if name = "get_notable_events" then getNotableEvents args headers w
  else if name = "get_user_risk_score" then getUserRiskScore args headers w
  else if name = "search_assets" then searchAssets args headers w
  else .thrown none ("Unknown tool: " ++ name)

/-- Observable outcome of one dispatched tool call: how many times
`authenticate` ran, the data-endpoint request issued (if any), and the
Tool Call Result returned to the protocol layer. -/
structure DispatchOutcome where
  authCalls : Nat
  dataRequest : Option HttpRequest
  result : ToolResult
deriving Repr

/-- The CallToolRequestSchema handler: authenticate first (exactly one
call, before the switch); on an authentication throw, or on any error
thrown below, the catch converts the error into the single-text-block
result `Error: <message>`.  The function is total: no fault propagates. -/
def handleToolCall (name : String) (args : JsObj) (w : World) : DispatchOutcome :=
  match authenticate w with
  | .error msg => { authCalls := 1, dataRequest := none, result := textResult ("Error: " ++ msg) }
  | .ok token =>
      match dispatchStep name args (mkHeaders token) w with
      | .done req res => { authCalls := 1, dataRequest := some req, result := res }
      | .thrown req msg =>
          { authCalls := 1, dataRequest := req, result := textResult ("Error: " ++ msg) }

/-- A dispatch hit a recoverable-error path that is not handled inside
`searchEvents`: the authentication threw, or the selected branch of the
switch threw (unknown tool, invalid time value, or a propagated
data-endpoint failure in one of the four simple handlers). -/
def isErrorPath (name : String) (args : JsObj) (w : World) : Bool :=
  match authenticate w with
  | .error _ => true
  | .ok token =>
      match dispatchStep name args (mkHeaders token) w with
      | .done _ _ => false
      | .thrown _ _ => true

/-! Sample inputs used by the witness theorems -/

/-- A successful authentication body carrying a token. -/
def sampleAuthBody : Json := Json.obj [("access_token", Json.str "tok-123")]

/-- A 401 from the authentication endpoint. -/
def sampleAuthError : AxiosError :=
  { response := some { status := 401, statusText := "Unauthorized",
                       data := Json.obj [("error_description", Json.str "bad credentials")] }
    message := "Request failed with status code 401" }

/-- A 500 from the data endpoint. -/
def sampleHttpError : AxiosError :=
  { response := some { status := 500, statusText := "Internal Server Error",
                       data := Json.str "boom" }
    message := "Request failed with status code 500" }

/-- A world where both network calls succeed. -/
def wOk : World :=
  { authResult := .ok sampleAuthBody, httpResult := .ok (Json.obj []), nowMs := 1700000000000 }

/-- A world where authentication fails. -/
def wAuthFail : World :=
  { authResult := .error sampleAuthError, httpResult := .ok (Json.obj []), nowMs := 1700000000000 }

/-- A world where authentication succeeds and the data call fails. -/
def wHttpFail : World :=
  { authResult := .ok sampleAuthBody, httpResult := .error sampleHttpError, nowMs := 1700000000000 }

/-! Helper lemmas -/

/-- A handler step that returns normally returns a single-text-block
result. -/
def HandlerStep.wellFormed : HandlerStep → Prop
  | .done _ res => ∃ t, res = textResult t
  | .thrown _ _ => True

theorem dispatchStep_wellFormed (name : String) (args : JsObj)
    (headers : List (String × String)) (w : World) :
    (dispatchStep name args headers w).wellFormed := by
  unfold dispatchStep searchEvents getUserTimeline getNotableEvents getUserRiskScore searchAssets
  repeat' split
  all_goals (try (dsimp only; repeat' split))
  all_goals first
    | exact ⟨_, rfl⟩
    | trivial

/-- Number of occurrences of a character in a string. -/
def countChar (s : String) (c : Char) : Nat := s.data.count c

theorem countChar_append (a b : String) (c : Char) :
    countChar (a ++ b) c = countChar a c + countChar b c := by
  simp [countChar, String.data_append]

/-! Claim theorems -/

/-- C8: Credential Store construction fails, before any tool call can be
served, with an error identifying the missing endpoint whenever the
endpoint configuration value is absent, and with an error naming the API
key and API secret as jointly required whenever either of them is absent
(the endpoint being present); construction either fails or yields a full
configuration — there is no partial-success state. -/
theorem c8_credential_store_validation (env : EnvConfig) :
    (env.exabeamUrl = none →
      constructConfig env = .error "EXABEAM_URL environment variable is required") ∧
    (envTruthy env.exabeamUrl = true →
      env.exabeamApiKey = none ∨ env.exabeamApiSecret = none →
      constructConfig env =
        .error "Both EXABEAM_API_KEY and EXABEAM_API_SECRET environment variables are required") ∧
    (∀ c, constructConfig env = .ok c →
      envTruthy env.exabeamUrl = true ∧ envTruthy env.exabeamApiKey = true ∧
      envTruthy env.exabeamApiSecret = true) := by
  have envTruthy_none : envTruthy none = false := rfl
  refine ⟨?_, ?_, ?_⟩
  · intro h
    simp [constructConfig, h, envTruthy_none]
  · intro hurl hks
    rcases hks with h | h <;> simp [constructConfig, hurl, h, envTruthy_none]
  · intro c hc
    unfold constructConfig at hc
    split at hc
    · simp at hc
    · split at hc
      · simp at hc
      · rename_i h1 h2
        simp only [not_or] at h2
        refine ⟨?_, ?_, ?_⟩
        · revert h1
          cases envTruthy env.exabeamUrl <;> simp
        · have hk := h2.1
          revert hk
          cases envTruthy env.exabeamApiKey <;> simp
        · have hs := h2.2
          revert hs
          cases envTruthy env.exabeamApiSecret <;> simp

/-- C8 witness: with the endpoint variable absent, construction fails with
the endpoint diagnostic. -/
theorem c8_witness :
    constructConfig
      { exabeamUrl := none, exabeamApiKey := some "k", exabeamApiSecret := some "s" } =
      .error "EXABEAM_URL environment variable is required" :=
  (c8_credential_store_validation _).1 rfl

/-- C5: every search_events call POSTs a body whose filter is the supplied
query (never a wildcard), or the empty string when the query is absent or
empty; whose fields are exactly the fixed six-field projection; whose
limit defaults to 100 when absent; and whose startTime/endTime default to
24 hours before call time and call time. -/
theorem c5_search_events_request (args : JsObj) (nowMs : Int) :
    (∀ s, s ≠ "" → jsGet args "query" = some (Json.str s) →
      (mkSearchEventsParams args nowMs).filter = Json.str s) ∧
    (jsGet args "query" = none ∨ jsGet args "query" = some (Json.str "") →
      (mkSearchEventsParams args nowMs).filter = Json.str "") ∧
    (mkSearchEventsParams args nowMs).fields =
      ["time", "user", "action", "result", "src_ip", "dest_ip"] ∧
    (jsGet args "limit" = none → (mkSearchEventsParams args nowMs).limit = Json.num 100) ∧
    (jsGet args "startTime" = none →
      (mkSearchEventsParams args nowMs).startTime =
        Json.str (isoOfMs (nowMs - 24 * 60 * 60 * 1000))) ∧
    (jsGet args "endTime" = none →
      (mkSearchEventsParams args nowMs).endTime = Json.str (isoOfMs nowMs)) ∧
    (∀ headers w req res, w.nowMs = nowMs →
      searchEvents args headers w = HandlerStep.done req res →
      req.method = Method.post ∧
      req.body = some (mkSearchEventsParams args nowMs).toJson) := by
  refine ⟨?_, ?_, rfl, ?_, ?_, ?_, ?_⟩
  · intro s hs hq
    simp [mkSearchEventsParams, jsOr, hq, Json.truthy, hs]
  · intro hq
    rcases hq with h | h <;> simp [mkSearchEventsParams, jsOr, h, Json.truthy]
  · intro h
    simp [mkSearchEventsParams, jsGetD, h]
  · intro h
    simp [mkSearchEventsParams, jsOr, h]
  · intro h
    simp [mkSearchEventsParams, jsOr, h]
  · intro headers w req res hnow hdone
    subst hnow
    unfold searchEvents at hdone
    rcases hh : w.httpResult with e | d <;> rw [hh] at hdone <;>
      cases hdone <;> exact ⟨rfl, rfl⟩

/-- C5 witness: a present-but-empty query yields the empty filter, not a
wildcard. -/
theorem c5_witness :
    (mkSearchEventsParams [("query", Json.str "")] 0).filter = Json.str "" :=
  ((c5_search_events_request [("query", Json.str "")] 0).2.1) (Or.inr rfl)

/-- C6: every search_assets call builds a payload whose limit is the
constant 50 regardless of the arguments; assetType "all" (or absent,
"all" being the default) is omitted from the payload, any other value is
included verbatim; the payload is POSTed as the request body. -/
theorem c6_search_assets_payload (args : JsObj) :
    (jsGet args "assetType" = none ∨ jsGet args "assetType" = some (Json.str "all") →
      searchAssetsPayload args =
        [("query", jsGet args "query"), ("limit", some (Json.num 50))]) ∧
    (∀ v, jsGet args "assetType" = some v → v.isStr "all" = false →
      searchAssetsPayload args =
        [("query", jsGet args "query"), ("limit", some (Json.num 50)),
         ("assetType", some v)]) ∧
    (∀ headers w req res, searchAssets args headers w = HandlerStep.done req res →
      req.method = Method.post ∧
      req.body = some (payloadToJson (searchAssetsPayload args))) := by
  refine ⟨?_, ?_, ?_⟩
  · intro h
    rcases h with h | h <;> simp [searchAssetsPayload, jsGetD, h, Json.isStr]
  · intro v hv hne
    simp [searchAssetsPayload, jsGetD, hv, hne]
  · intro headers w req res hdone
    unfold searchAssets at hdone
    rcases hh : w.httpResult with e | d
    · rw [hh] at hdone
      cases hdone
    · rw [hh] at hdone
      cases hdone
      exact ⟨rfl, rfl⟩

/-- C6 witness: an explicit non-"all" assetType is appended verbatim after
the fixed limit of 50. -/
theorem c6_witness :
    searchAssetsPayload [("query", Json.str "web"), ("assetType", Json.str "server")] =
      [("query", some (Json.str "web")), ("limit", some (Json.num 50)),
       ("assetType", some (Json.str "server"))] :=
  ((c6_search_assets_payload _).2.1) (Json.str "server") rfl rfl

/-- C7: a get_notable_events call with no arguments issues a GET whose
minSeverity is 2 — the rank of the default severity "medium" under the map
low 1, medium 2, high 3, critical 4 — and whose window runs from 24 hours
(the default) before call time up to call time. -/
theorem c7_notable_events_defaults (w : World) (tok : Option Json)
    (hauth : authenticate w = .ok tok) :
    (∃ req, (handleToolCall "get_notable_events" [] w).dataRequest = some req ∧
      req.method = Method.get ∧
      req.url = apiBaseUrl ++ "/notable-events/v1/events" ∧
      req.params = [("minSeverity", some (Json.num 2)),
        ("startTime", some (Json.str (isoOfMs (w.nowMs - 24 * 60 * 60 * 1000)))),
        ("endTime", some (Json.str (isoOfMs w.nowMs)))]) ∧
    severityMap "low" = some (Json.num 1) ∧ severityMap "medium" = some (Json.num 2) ∧
    severityMap "high" = some (Json.num 3) ∧ severityMap "critical" = some (Json.num 4) := by
  refine ⟨?_, rfl, rfl, rfl, rfl⟩
  have hreq : (handleToolCall "get_notable_events" [] w).dataRequest =
      some { method := Method.get
             url := apiBaseUrl ++ "/notable-events/v1/events"
             params := [("minSeverity", some (Json.num 2)),
               ("startTime", some (Json.str (isoOfMs (w.nowMs - 24 * 60 * 60 * 1000)))),
               ("endTime", some (Json.str (isoOfMs w.nowMs)))]
             body := none
             headers := mkHeaders tok } := by
    rcases hh : w.httpResult with d | e <;>
      simp [handleToolCall, hauth, dispatchStep, getNotableEvents, jsGetD, jsGet,
        Json.jsToString, severityMap, Json.toNum, hh]
  exact ⟨_, hreq, rfl, rfl, rfl⟩

/-- C7 witness: defaults in a world with successful calls. -/
theorem c7_witness :
    (∃ req, (handleToolCall "get_notable_events" [] wOk).dataRequest = some req ∧
      req.method = Method.get ∧
      req.url = apiBaseUrl ++ "/notable-events/v1/events" ∧
      req.params = [("minSeverity", some (Json.num 2)),
        ("startTime", some (Json.str (isoOfMs (wOk.nowMs - 24 * 60 * 60 * 1000)))),
        ("endTime", some (Json.str (isoOfMs wOk.nowMs)))]) ∧
    severityMap "low" = some (Json.num 1) ∧ severityMap "medium" = some (Json.num 2) ∧
    severityMap "high" = some (Json.num 3) ∧ severityMap "critical" = some (Json.num 4) :=
  c7_notable_events_defaults wOk (some (Json.str "tok-123")) rfl

/-- C9 counterexample: severity "toString" is a string outside
low/medium/high/critical, yet the bracket lookup hits the member inherited
from Object.prototype, so the issued request carries a present (truthy)
minSeverity value instead of omitting the parameter — refuting the claim
that the parameter is absent for every such string. -/
theorem c9_counterexample :
    ∃ req, (handleToolCall "get_notable_events"
        [("severity", Json.str "toString")] wOk).dataRequest = some req ∧
      req.params = [("minSeverity", some (Json.proto "toString")),
        ("startTime", some (Json.str (isoOfMs (wOk.nowMs - 24 * 60 * 60 * 1000)))),
        ("endTime", some (Json.str (isoOfMs wOk.nowMs)))] := by
  have hreq : (handleToolCall "get_notable_events"
      [("severity", Json.str "toString")] wOk).dataRequest =
      some { method := Method.get
             url := apiBaseUrl ++ "/notable-events/v1/events"
             params := [("minSeverity", some (Json.proto "toString")),
               ("startTime", some (Json.str (isoOfMs (wOk.nowMs - 24 * 60 * 60 * 1000)))),
               ("endTime", some (Json.str (isoOfMs wOk.nowMs)))]
             body := none
             headers := mkHeaders (some (Json.str "tok-123")) } := by
    simp [handleToolCall, authenticate, wOk, sampleAuthBody, Json.getProp, dispatchStep,
      getNotableEvents, jsGetD, jsGet, Json.jsToString, severityMap, objectProtoMembers,
      Json.toNum]
  exact ⟨_, hreq, rfl⟩

/-- C9 (amended): a get_notable_events call whose severity is a string
outside low/medium/high/critical and not a member name inherited from
Object.prototype does not fail while building the parameters (for any
hours value that coerces to a number, the default included): the lookup
yields `undefined`, so the request is issued with minSeverity absent while
startTime and endTime are still present. -/
theorem c9_unmapped_severity_is_safe (args : JsObj) (w : World) (tok : Option Json)
    (s : String) (hh : Int)
    (hauth : authenticate w = .ok tok)
    (hsev : jsGet args "severity" = some (Json.str s))
    (h1 : s ≠ "low") (h2 : s ≠ "medium") (h3 : s ≠ "high") (h4 : s ≠ "critical")
    (hproto : s ∉ objectProtoMembers)
    (hhours : (jsGetD args "hours" (Json.num 24)).toNum = some hh) :
    ∃ req, (handleToolCall "get_notable_events" args w).dataRequest = some req ∧
      req.params = [("minSeverity", none),
        ("startTime", some (Json.str (isoOfMs (w.nowMs - hh * 60 * 60 * 1000)))),
        ("endTime", some (Json.str (isoOfMs w.nowMs)))] := by
  have hreq : (handleToolCall "get_notable_events" args w).dataRequest =
      some { method := Method.get
             url := apiBaseUrl ++ "/notable-events/v1/events"
             params := [("minSeverity", none),
               ("startTime", some (Json.str (isoOfMs (w.nowMs - hh * 60 * 60 * 1000)))),
               ("endTime", some (Json.str (isoOfMs w.nowMs)))]
             body := none
             headers := mkHeaders tok } := by
    simp only [jsGetD] at hhours
    rcases hht : w.httpResult with e | d <;>
      simp [handleToolCall, hauth, dispatchStep, getNotableEvents, jsGetD, hsev,
        Json.jsToString, severityMap, h1, h2, h3, h4, hproto, hhours, hht]
  exact ⟨_, hreq, rfl⟩

/-- C9 witness: an out-of-range, non-inherited severity string at the
default hours. -/
theorem c9_witness :
    ∃ req, (handleToolCall "get_notable_events" [("severity", Json.str "extreme")] wOk).dataRequest
        = some req ∧
      req.params = [("minSeverity", none),
        ("startTime", some (Json.str (isoOfMs (wOk.nowMs - 24 * 60 * 60 * 1000)))),
        ("endTime", some (Json.str (isoOfMs wOk.nowMs)))] :=
  c9_unmapped_severity_is_safe [("severity", Json.str "extreme")] wOk
    (some (Json.str "tok-123")) "extreme" 24 rfl rfl
    (by decide) (by decide) (by decide) (by decide) (by decide) rfl

/-- C10: get_user_timeline and get_user_risk_score embed the username in
the request URL by plain string concatenation of the fixed base, the
"/users/v1/" segment, the username verbatim and the fixed suffix, with no
URL-encoding; consequently every "/", "?" or "#" in the username flows
into the URL and changes its path or query structure. -/
theorem c10_username_concatenated_into_url (s : String) (args : JsObj) (w : World)
    (tok : Option Json) (d : Int)
    (hauth : authenticate w = .ok tok)
    (huser : jsGet args "username" = some (Json.str s))
    (hdays : (jsGetD args "days" (Json.num 7)).toNum = some d) :
    (∃ req, (handleToolCall "get_user_timeline" args w).dataRequest = some req ∧
      req.url = apiBaseUrl ++ "/users/v1/" ++ s ++ "/timeline") ∧
    (∃ req, (handleToolCall "get_user_risk_score" args w).dataRequest = some req ∧
      req.url = apiBaseUrl ++ "/users/v1/" ++ s ++ "/risk-score") ∧
    countChar (apiBaseUrl ++ "/users/v1/" ++ s ++ "/timeline") '/' = 6 + countChar s '/' ∧
    countChar (apiBaseUrl ++ "/users/v1/" ++ s ++ "/timeline") '?' = countChar s '?' ∧
    countChar (apiBaseUrl ++ "/users/v1/" ++ s ++ "/timeline") '#' = countChar s '#' := by
  refine ⟨?_, ?_, ?_, ?_, ?_⟩
  · have hreq : (handleToolCall "get_user_timeline" args w).dataRequest =
        some { method := Method.get
               url := apiBaseUrl ++ "/users/v1/" ++ s ++ "/timeline"
               params := [("startTime",
                   some (Json.str (isoOfMs (w.nowMs - d * 24 * 60 * 60 * 1000)))),
                 ("endTime", some (Json.str (isoOfMs w.nowMs)))]
               body := none
               headers := mkHeaders tok } := by
      simp only [jsGetD] at hdays
      rcases hht : w.httpResult with e | dd <;>
        simp [handleToolCall, hauth, dispatchStep, getUserTimeline, jsGetD, huser,
          jsTemplate, Json.jsToString, hdays, hht]
    exact ⟨_, hreq, rfl⟩
  · have hreq : (handleToolCall "get_user_risk_score" args w).dataRequest =
        some { method := Method.get
               url := apiBaseUrl ++ "/users/v1/" ++ s ++ "/risk-score"
               params := []
               body := none
               headers := mkHeaders tok } := by
      rcases hht : w.httpResult with dd | e <;>
        simp [handleToolCall, hauth, dispatchStep, getUserRiskScore, huser,
          jsTemplate, Json.jsToString, hht]
    exact ⟨_, hreq, rfl⟩
  · have hb : countChar apiBaseUrl '/' = 2 := by decide
    have h1 : countChar "/users/v1/" '/' = 3 := by decide
    have h2 : countChar "/timeline" '/' = 1 := by decide
    simp [countChar_append, hb, h1, h2]
    omega
  · have hb : countChar apiBaseUrl '?' = 0 := by decide
    have h1 : countChar "/users/v1/" '?' = 0 := by decide
    have h2 : countChar "/timeline" '?' = 0 := by decide
    simp [countChar_append, hb, h1, h2]
  · have hb : countChar apiBaseUrl '#' = 0 := by decide
    have h1 : countChar "/users/v1/" '#' = 0 := by decide
    have h2 : countChar "/timeline" '#' = 0 := by decide
    simp [countChar_append, hb, h1, h2]

/-- C10 witness: a username containing a slash adds a path segment. -/
theorem c10_witness :
    (∃ req, (handleToolCall "get_user_timeline" [("username", Json.str "a/b")] wOk).dataRequest
        = some req ∧
      req.url = apiBaseUrl ++ "/users/v1/" ++ "a/b" ++ "/timeline") ∧
    (∃ req, (handleToolCall "get_user_risk_score" [("username", Json.str "a/b")] wOk).dataRequest
        = some req ∧
      req.url = apiBaseUrl ++ "/users/v1/" ++ "a/b" ++ "/risk-score") ∧
    countChar (apiBaseUrl ++ "/users/v1/" ++ "a/b" ++ "/timeline") '/' =
      6 + countChar "a/b" '/' ∧
    countChar (apiBaseUrl ++ "/users/v1/" ++ "a/b" ++ "/timeline") '?' = countChar "a/b" '?' ∧
    countChar (apiBaseUrl ++ "/users/v1/" ++ "a/b" ++ "/timeline") '#' = countChar "a/b" '#' :=
  c10_username_concatenated_into_url "a/b" [("username", Json.str "a/b")] wOk
    (some (Json.str "tok-123")) 7 rfl rfl rfl

/-- C1: every dispatched tool call — whatever the authenticator, the
handler or the upstream calls do — returns a Result with exactly one
content block of kind "text" (`textResult`), and on every
recoverable-error path not handled inside search_events the text begins
with "Error: ".  `handleToolCall` is a total function, so no call
propagates an unhandled fault. -/
theorem c1_result_is_single_text_block (name : String) (args : JsObj) (w : World) :
    ∃ t, (handleToolCall name args w).result = textResult t ∧
      (isErrorPath name args w = true → ∃ rest, t = "Error: " ++ rest) := by
  rcases h : authenticate w with m | tok
  · refine ⟨"Error: " ++ m, ?_, fun _ => ⟨m, rfl⟩⟩
    simp [handleToolCall, h]
  · have hw := dispatchStep_wellFormed name args (mkHeaders tok) w
    rcases hd : dispatchStep name args (mkHeaders tok) w with ⟨req, res⟩ | ⟨req, m⟩
    · rw [hd] at hw
      obtain ⟨t, ht⟩ := hw
      refine ⟨t, ?_, ?_⟩
      · simp [handleToolCall, h, hd, ht]
      · intro hep
        exfalso
        simp [isErrorPath, h, hd] at hep
    · refine ⟨"Error: " ++ m, ?_, fun _ => ⟨m, rfl⟩⟩
      simp [handleToolCall, h, hd]

/-- C1 witness: on a concrete error path (failed authentication) the
single text block carries the Error: prefix. -/
theorem c1_witness :
    ∃ t, (handleToolCall "delete_everything" [] wAuthFail).result = textResult t ∧
      ∃ rest, t = "Error: " ++ rest := by
  obtain ⟨t, ht, herr⟩ := c1_result_is_single_text_block "delete_everything" [] wAuthFail
  exact ⟨t, ht, herr rfl⟩

/-- C2: authenticate runs exactly once per dispatched call, ahead of the
handler switch; when it fails, the dispatch of any tool name returns an
error Result without issuing any data-endpoint request. -/
theorem c2_authenticate_once_and_gates (name : String) (args : JsObj) (w : World) :
    (handleToolCall name args w).authCalls = 1 ∧
    (∀ e, w.authResult = .error e →
      (handleToolCall name args w).dataRequest = none ∧
      ∃ m, (handleToolCall name args w).result =
        textResult ("Error: Authentication failed: " ++ m)) := by
  constructor
  · rcases h : authenticate w with m | tok
    · simp [handleToolCall, h]
    · rcases hd : dispatchStep name args (mkHeaders tok) w with ⟨req, res⟩ | ⟨req, m⟩ <;>
        simp [handleToolCall, h, hd]
  · intro e he
    obtain ⟨m, hm⟩ : ∃ m, authenticate w = .error ("Authentication failed: " ++ m) := by
      rcases hdesc : e.response.bind (fun r => r.data.getProp "error_description") with _ | j
      · exact ⟨e.message, by simp [authenticate, he, hdesc]⟩
      · by_cases hj : j.truthy
        · exact ⟨j.jsToString, by simp [authenticate, he, hdesc, hj]⟩
        · exact ⟨e.message, by simp [authenticate, he, hdesc, hj]⟩
    exact ⟨by simp [handleToolCall, hm],
      ⟨m, by simp [handleToolCall, hm, ← String.append_assoc]⟩⟩

/-- C2 witness: a failed authentication short-circuits a search_events
call. -/
theorem c2_witness :
    (handleToolCall "search_events" [] wAuthFail).authCalls = 1 ∧
    (handleToolCall "search_events" [] wAuthFail).dataRequest = none :=
  ⟨(c2_authenticate_once_and_gates "search_events" [] wAuthFail).1,
   ((c2_authenticate_once_and_gates "search_events" [] wAuthFail).2 sampleAuthError rfl).1⟩

/-- C3: dispatching a name that is none of the five registered tools,
under a successful authentication, yields a Result whose single text block
is exactly the unknown-tool error with the name interpolated. -/
theorem c3_unknown_tool (name : String) (args : JsObj) (w : World) (tok : Option Json)
    (hauth : authenticate w = .ok tok) (hname : name ∉ toolNames) :
    (handleToolCall name args w).result = textResult ("Error: Unknown tool: " ++ name) := by
  simp only [toolNames, List.mem_cons, List.not_mem_nil, or_false, not_or] at hname
  obtain ⟨h1, h2, h3, h4, h5⟩ := hname
  simp [handleToolCall, hauth, dispatchStep, h1, h2, h3, h4, h5, ← String.append_assoc]

/-- C3 witness: the spec's example name. -/
theorem c3_witness :
    (handleToolCall "delete_everything" [] wOk).result =
      textResult ("Error: Unknown tool: " ++ "delete_everything") :=
  c3_unknown_tool "delete_everything" [] wOk (some (Json.str "tok-123")) rfl (by decide)

/-- C4: when the data call fails, search_events catches its own failure
and returns the rich diagnostic — status code, status text, upstream body
(or transport message) and the exact request parameters, all in the
text — while each of the other four handlers lets the failure reach the
dispatcher, whose text is the generic Error: message (the two handlers
with a numeric look-back argument reach their data call provided that
argument coerces to a number, the defaults included). -/
theorem c4_error_format_asymmetry (args : JsObj) (w : World) (tok : Option Json)
    (e : AxiosError) (dd hh : Int)
    (hauth : authenticate w = .ok tok)
    (hhttp : w.httpResult = .error e)
    (hdays : (jsGetD args "days" (Json.num 7)).toNum = some dd)
    (hhours : (jsGetD args "hours" (Json.num 24)).toNum = some hh) :
    (handleToolCall "search_events" args w).result =
      textResult ("Error: " ++ statusTemplate e.response ++ " - " ++
        statusTextTemplate e.response ++
        "\n\nDetails: " ++ stringify2 (detailsVal e) ++
        "\n\nRequest sent: " ++ stringify2 (mkSearchEventsParams args w.nowMs).toJson) ∧
    (∀ name ∈ (["get_user_timeline", "get_notable_events",
                "get_user_risk_score", "search_assets"] : List String),
      (handleToolCall name args w).result = textResult ("Error: " ++ e.message)) := by
  constructor
  · simp [handleToolCall, hauth, dispatchStep, searchEvents, hhttp, searchEventsErrorText]
  · intro name hn
    simp only [jsGetD] at hdays hhours
    simp only [List.mem_cons, List.not_mem_nil, or_false] at hn
    rcases hn with rfl | rfl | rfl | rfl
    · simp [handleToolCall, hauth, dispatchStep, getUserTimeline, jsGetD, hdays, hhttp]
    · simp [handleToolCall, hauth, dispatchStep, getNotableEvents, jsGetD, hhours, hhttp]
    · simp [handleToolCall, hauth, dispatchStep, getUserRiskScore, hhttp]
    · simp [handleToolCall, hauth, dispatchStep, searchAssets, hhttp]

/-- C4 witness: a 500 on the data call surfaces as the generic error text
through one of the four simple handlers. -/
theorem c4_witness :
    (handleToolCall "get_user_risk_score" [] wHttpFail).result =
      textResult ("Error: " ++ sampleHttpError.message) :=
  (c4_error_format_asymmetry [] wHttpFail (some (Json.str "tok-123")) sampleHttpError 7 24
    rfl rfl rfl rfl).2 "get_user_risk_score" (by decide)

end ExabeamMCP
